import Mathlib

/-!
# Verification of the accessibility-crawler core (src/crawler.ts)

Shallow embedding of the crawl controller, URL classifier, visited-set
budget tracker, report renderer, CLI budget parsing and resource cleanup
of `src/crawler.ts`, together with proofs of the specified properties.

Modelling conventions:
* A JavaScript URL string is either parseable by `new URL(...)` or not.
  We embed this as the inductive `Url`: `Url.parsed` carries the
  components JS exposes (`protocol`/host/port/`pathname`/`search`/`hash`,
  with `search` and `hash` carrying their leading `?`/`#` as in JS, and
  default ports already normalised away as `new URL` does), and
  `Url.malformed` carries the raw string for inputs on which `new URL`
  throws.  JS serialisation (`href`) is injective on parsed URLs, so
  equality of `Url` values models equality of the strings the crawler
  stores in its `visitedUrls` set; a malformed string is never equal to
  the `href` of a parsed URL.
* External effects (page navigation, axe analysis, Lighthouse, link
  extraction, clock) are an explicit environment `Env`.  `Env.load u =
  none` models "navigation or the axe analysis threw for `u`";
  `PageBehavior.links = none` models "link extraction (or closing the
  page) threw after the result was recorded".
* The recursion of `crawl` is made total with a fuel parameter; the
  real code terminates because the budget guard bounds the recursion,
  and all theorems hold for every fuel value.
-/

set_option linter.unusedVariables false

namespace A11y

/-- The components of a URL accepted by `new URL(...)`, named as the JS
`URL` properties used by the crawler.  `search` includes its leading `?`
(or is empty) and `hash` its leading `#` (or is empty), as in JS. -/
structure ParsedUrl where
  scheme : String
  host : String
  port : Option Nat
  pathname : String
  search : String
  hash : String
deriving DecidableEq, Repr

/-- A URL string as the crawler sees it: either `new URL` succeeds and
yields components, or it throws and the raw string is kept opaque. -/
inductive Url where
  | parsed (u : ParsedUrl)
  | malformed (raw : String)
deriving DecidableEq, Repr

/-- JS `URL.href` serialisation (the string the crawler stores and
compares); for a malformed input the raw string itself. -/
def Url.href : Url → String
  | .parsed u =>
      u.scheme ++ "://" ++ u.host ++
      (match u.port with
       | some p => ":" ++ toString p
       | none => "") ++
      u.pathname ++ u.search ++ u.hash
  | .malformed raw => raw

/-- A scheme+host+port triple, the value of JS `URL.origin` compared by
`isInternalUrl`. -/
structure Origin where
  scheme : String
  host : String
  port : Option Nat
deriving DecidableEq, Repr

/-- `new URL(url).origin` — defined for parsed URLs only. -/
def Url.origin : Url → Option Origin
  | .parsed u => some ⟨u.scheme, u.host, u.port⟩
  | .malformed _ => none

/-- `normalizeUrl` (src/crawler.ts:127-135): parse, clear the hash,
return the serialisation; on a parse failure return the input
unchanged. -/
def normalizeUrl : Url → Url
  | .parsed u => .parsed { u with hash := "" }
  | .malformed raw => .malformed raw

/-- `isInternalUrl` (src/crawler.ts:137-143): the URL's origin equals
the session's base origin; a URL on which `new URL` throws is not
internal. -/
def isInternalUrl (base : Origin) : Url → Bool
  | .parsed u => decide (Origin.mk u.scheme u.host u.port = base)
  | .malformed _ => false

/-- ASCII lower-casing of one character (the deny-listed extensions and
the impact keys are ASCII, so this matches JS `toLowerCase` on every
string the crawler compares). -/
def charLower (c : Char) : Char :=
  if 'A' ≤ c ∧ c ≤ 'Z' then Char.ofNat (c.toNat + 32) else c

/-- ASCII upper-casing of one character (JS `toUpperCase` on the ASCII
impact keys). -/
def charUpper (c : Char) : Char :=
  if 'a' ≤ c ∧ c ≤ 'z' then Char.ofNat (c.toNat - 32) else c

/-- JS `String.prototype.toLowerCase` on the ASCII strings involved. -/
def jsToLower (s : String) : String := ⟨s.data.map charLower⟩

/-- JS `String.prototype.toUpperCase` on the ASCII strings involved. -/
def jsToUpper (s : String) : String := ⟨s.data.map charUpper⟩

/-- JS `String.prototype.endsWith`: suffix test on the characters. -/
def jsEndsWith (s pat : String) : Bool := pat.data.isSuffixOf s.data

/-- The deny-list of non-document file extensions
(src/crawler.ts:148-179). -/
def fileExtensions : List String :=
  [".pdf", ".zip", ".doc", ".docx", ".xls", ".xlsx", ".ppt", ".pptx",
   ".jpg", ".jpeg", ".png", ".gif", ".svg", ".webp", ".ico",
   ".mp4", ".avi", ".mov", ".wmv", ".mp3", ".wav",
   ".xml", ".json", ".csv", ".txt", ".dmg", ".exe", ".pkg", ".deb", ".rpm"]

/-- `isWebPage` (src/crawler.ts:145-184): the lower-cased pathname must
not end in a deny-listed extension; a URL on which `new URL` throws
counts as a web page. -/
def isWebPage : Url → Bool
  | .parsed u =>
      let pathname := jsToLower u.pathname
      !(fileExtensions.any (fun ext => jsEndsWith pathname ext))
  | .malformed _ => true

/-- One axe-core affected element (`violation.nodes[i]`). -/
structure NodeInfo where
  html : String
  failureSummary : Option String
deriving DecidableEq, Repr

/-- One axe-core violation; `impact` is `none` when axe reports a null
or missing impact. -/
structure Violation where
  id : String
  impact : Option String
  help : String
  description : String
  helpUrl : String
  nodes : List NodeInfo
deriving DecidableEq, Repr

/-- The part of `AxeResults` the crawler reads. -/
structure AxeResults where
  violations : List Violation
deriving DecidableEq, Repr

/-- One Lighthouse audit entry; `scorePct` is `audit.score` scaled to
0..100 with `none` for a null score. -/
structure LhAudit where
  title : String
  description : Option String
  scorePct : Option Nat
  scoreDisplayMode : String
deriving DecidableEq, Repr

/-- The part of a Lighthouse result the crawler reads:
`categories.accessibility.score` (stored scaled to 0..100) and the
audits record. -/
structure LighthouseResult where
  scorePct : Nat
  audits : List LhAudit
deriving DecidableEq, Repr

/-- `PageResult` (src/crawler.ts:21-26). -/
structure PageResult where
  url : Url
  axeResults : AxeResults
  lighthouseResults : Option LighthouseResult
  timestamp : String
deriving DecidableEq, Repr

/-- What the environment does when the crawler successfully navigates
to a URL and runs axe on it. -/
structure PageBehavior where
  /-- The axe results for the page. -/
  axe : AxeResults
  /-- The Lighthouse result, `none` when the Lighthouse call throws or
  yields no `lhr` (the inner try/catch of src/crawler.ts:82-92). -/
  lighthouse : Option LighthouseResult
  /-- The extracted hyperlinks, `none` when link extraction (or closing
  the page) throws after the result was pushed. -/
  links : Option (List Url)

/-- The external world: what navigation+axe does per URL (`none` =
throws), and the wall-clock ISO timestamp recorded for a page. -/
structure Env where
  load : Url → Option PageBehavior
  stamp : Url → String

/-- The per-session configuration: base origin (from the constructor),
the page budget (an integer: the CLI can produce negative values), and
whether `initialize()` has set `browser`/`context`. -/
structure Config where
  baseOrigin : Origin
  maxPages : Int
  browserReady : Bool

/-- The mutable session state touched by `crawl`: `visitedUrls` (the JS
`Set` as a list without duplicates, newest first) and the accumulated
`results`. -/
structure CrawlState where
  visitedUrls : List Url
  results : List PageResult
deriving DecidableEq, Repr

/-- The `PageResult` pushed at src/crawler.ts:94-99. -/
def mkPageResult (env : Env) (n : Url) (pg : PageBehavior) : PageResult :=
  { url := n
    axeResults := pg.axe
    lighthouseResults := pg.lighthouse
    timestamp := env.stamp n }

/-- The crawl controller (src/crawler.ts:49-116), fuelled.  The `inl`
branch is the body of `crawl(url)`; the `inr` branch is the
`for (const link of links)` loop with its budget break
(src/crawler.ts:106-109). -/
def crawlAux (env : Env) (cfg : Config) :
    Nat → Url ⊕ List Url → CrawlState → CrawlState
  | 0, _, st => st
  | fuel + 1, .inl url, st =>
    -- `if (!this.browser || !this.context || visitedUrls.size >= maxPages) return`
    if cfg.browserReady = false then st
    else if cfg.maxPages ≤ (st.visitedUrls.length : Int) then st
    else
      let n := normalizeUrl url
      -- `if (has(normalizedUrl) || !isInternalUrl || !isWebPage) return`
      if n ∈ st.visitedUrls ∨ isInternalUrl cfg.baseOrigin n = false ∨
          isWebPage n = false then st
      else
        -- `this.visitedUrls.add(normalizedUrl)`
        let st1 : CrawlState := { st with visitedUrls := n :: st.visitedUrls }
        match env.load n with
        | none => st1  -- navigation or axe threw: caught at src/crawler.ts:113-115
        | some pg =>
          -- `this.results.push({...})`
          let st2 : CrawlState :=
            { st1 with results := st1.results ++ [mkPageResult env n pg] }
          -- `if (this.visitedUrls.size < this.maxPages)`
          if (st2.visitedUrls.length : Int) < cfg.maxPages then
            match pg.links with
            | none => st2  -- extractLinks / page.close threw: caught
            | some ls => crawlAux env cfg fuel (.inr ls) st2
          else st2
  | fuel + 1, .inr [], st => st
  | fuel + 1, .inr (l :: ls), st =>
    -- `if (this.visitedUrls.size >= this.maxPages) break`
    if cfg.maxPages ≤ (st.visitedUrls.length : Int) then st
    else crawlAux env cfg fuel (.inr ls) (crawlAux env cfg fuel (.inl l) st)

/-- `crawl(url)` entry point. -/
def crawl (fuel : Nat) (env : Env) (cfg : Config) (url : Url)
    (st : CrawlState) : CrawlState :=
  crawlAux env cfg fuel (.inl url) st

/-- The link loop of `crawl` applied to a frontier list. -/
def crawlList (fuel : Nat) (env : Env) (cfg : Config) (links : List Url)
    (st : CrawlState) : CrawlState :=
  crawlAux env cfg fuel (.inr links) st

/-! ## Report renderer (`generateMarkdownReport`, src/crawler.ts:186-344) -/

/-- JS interpolation of `violation.impact`; axe reports `null` for a
missing impact and JS renders that as the string `"null"`. -/
def showImpact : Option String → String
  | some s => s
  | none => "null"

/-- `totalViolations` (src/crawler.ts:192-195). -/
def totalViolations (results : List PageResult) : Nat :=
  (results.map (fun r => r.axeResults.violations.length)).sum

/-- The `criticalIssues`/`seriousIssues` reductions
(src/crawler.ts:196-207), parameterised by the impact string. -/
def impactCount (impact : String) (results : List PageResult) : Nat :=
  (results.map (fun r =>
    (r.axeResults.violations.filter
      (fun v => decide (v.impact = some impact))).length)).sum

/-- The average Lighthouse score string (src/crawler.ts:210-219):
`toFixed(1)` of the mean of the per-page scores, or `"N/A"` when no
page produced a score.  Scores are held as integer percentages; the
mean is rounded half-up to one decimal as `toFixed` does. -/
def avgLighthouseScore (results : List PageResult) : String :=
  let scores := (results.filter (fun r => r.lighthouseResults.isSome)).map
      (fun r => (r.lighthouseResults.getD ⟨0, []⟩).scorePct)
  if scores.length > 0 then
    let tenths := (20 * scores.sum + scores.length) / (2 * scores.length)
    toString (tenths / 10) ++ "." ++ toString (tenths % 10)
  else "N/A"

/-- The `byImpact` grouping (src/crawler.ts:279-292), in the fixed
`Object.entries` iteration order critical, serious, moderate, minor. -/
def violationsByImpact (vs : List Violation) : List (String × List Violation) :=
  [("critical", vs.filter (fun v => decide (v.impact = some "critical"))),
   ("serious", vs.filter (fun v => decide (v.impact = some "serious"))),
   ("moderate", vs.filter (fun v => decide (v.impact = some "moderate"))),
   ("minor", vs.filter (fun v => decide (v.impact = some "minor")))]

/-- Whether an impact value falls in one of the four rendered severity
buckets. -/
def recognizedImpact (i : Option String) : Bool :=
  decide (i = some "critical") || decide (i = some "serious") ||
  decide (i = some "moderate") || decide (i = some "minor")

/-- The per-group emoji (src/crawler.ts:297-304). -/
def impactEmoji (impact : String) : String :=
  if impact = "critical" then "🔴"
  else if impact = "serious" then "🟠"
  else if impact = "moderate" then "🟡"
  else "🔵"

/-- One affected-element block (src/crawler.ts:318-328); the `if
(node.failureSummary)` truthiness check skips both a missing and an
empty summary. -/
def nodeBlock (ix : Nat) (nd : NodeInfo) : String :=
  "**Element " ++ toString (ix + 1) ++ ":**\n```html\n" ++ nd.html ++ "\n```\n" ++
  (match nd.failureSummary with
   | some fs => if fs = "" then "" else fs ++ "\n\n"
   | none => "")

/-- One violation block (src/crawler.ts:309-336). -/
def violationBlock (v : Violation) : String :=
  "**" ++ v.help ++ "**\n\n" ++
  "- **Description:** " ++ v.description ++ "\n" ++
  "- **Impact:** " ++ showImpact v.impact ++ "\n" ++
  "- **Affected Elements:** " ++ toString v.nodes.length ++ "\n" ++
  "- **Learn More:** [" ++ v.id ++ "](" ++ v.helpUrl ++ ")\n\n" ++
  (if v.nodes.length > 0 then
    "<details>\n<summary>View affected elements</summary>\n\n" ++
    String.join ((v.nodes.take 3).enum.map (fun p => nodeBlock p.1 p.2)) ++
    (if v.nodes.length > 3 then
      "... and " ++ toString (v.nodes.length - 3) ++ " more element(s)\n\n"
     else "") ++
    "</details>\n\n"
   else "")

/-- One severity group (src/crawler.ts:294-337); empty groups are
skipped (`continue`). -/
def groupBlock (g : String × List Violation) : String :=
  if g.2.length = 0 then ""
  else
    "#### " ++ impactEmoji g.1 ++ " " ++ jsToUpper g.1 ++ " (" ++
    toString g.2.length ++ ")\n\n" ++
    String.join (g.2.map violationBlock)

/-- The failed-audit filter (src/crawler.ts:253-258): score not null,
score < 1 (i.e. percentage < 100), display mode not `notApplicable`. -/
def failedAudits (lr : LighthouseResult) : List LhAudit :=
  lr.audits.filter (fun a =>
    match a.scorePct with
    | some p => decide (p < 100) && decide (a.scoreDisplayMode ≠ "notApplicable")
    | none => false)

/-- One Lighthouse issue line (src/crawler.ts:262-267); the truthiness
check on `audit.description` skips missing and empty descriptions. -/
def auditLine (a : LhAudit) : String :=
  "- **" ++ a.title ++ "**\n" ++
  (match a.description with
   | some d => if d = "" then "" else "  " ++ d ++ "\n"
   | none => "")

/-- The Lighthouse score block of a page (src/crawler.ts:243-270). -/
def lighthouseBlock (lr : LighthouseResult) : String :=
  (if 90 ≤ lr.scorePct then "### 🟢"
   else if 50 ≤ lr.scorePct then "### 🟡"
   else "### 🔴") ++
  " Lighthouse Accessibility Score: " ++ toString lr.scorePct ++ "/100\n\n" ++
  (if (failedAudits lr).length > 0 then
    "**Lighthouse Issues (" ++ toString (failedAudits lr).length ++ "):**\n\n" ++
    String.join ((failedAudits lr).map auditLine) ++ "\n"
   else "")

/-- The axe part of a page section (src/crawler.ts:272-338). -/
def axeSection (ax : AxeResults) : String :=
  if ax.violations.length = 0 then "### ✅ Axe-core: No violations found!\n\n"
  else
    "### Axe-core Violations (" ++ toString ax.violations.length ++ ")\n\n" ++
    String.join ((violationsByImpact ax.violations).map groupBlock)

/-- One per-page section (src/crawler.ts:236-341).  `fmt` is
`new Date(timestamp).toLocaleString()`, an opaque pure formatting
function of the stored timestamp. -/
def pageBlock (fmt : String → String) (pr : PageResult) : String :=
  "## Page: " ++ pr.url.href ++ "\n\n" ++
  "**Analyzed:** " ++ fmt pr.timestamp ++ "\n\n" ++
  (match pr.lighthouseResults with
   | some lr => lighthouseBlock lr
   | none => "") ++
  axeSection pr.axeResults ++
  "---\n\n"

/-- The summary section (src/crawler.ts:221-233).  The `/100` suffix is
appended exactly when the average is not `"N/A"`. -/
def summarySection (results : List PageResult) : String :=
  "## Summary\n\n" ++
  "### Axe-core Results\n\n" ++
  "- **Total Violations:** " ++ toString (totalViolations results) ++ "\n" ++
  "- **Critical Issues:** " ++ toString (impactCount "critical" results) ++ "\n" ++
  "- **Serious Issues:** " ++ toString (impactCount "serious" results) ++ "\n\n" ++
  "### Lighthouse Results\n\n" ++
  "- **Average Accessibility Score:** " ++ avgLighthouseScore results ++
  (if avgLighthouseScore results ≠ "N/A" then "/100" else "") ++ "\n\n" ++
  "---\n\n"

/-- `generateMarkdownReport` (src/crawler.ts:186-344).  `now` is the
`new Date().toLocaleString()` wall-clock reading taken at render time
(src/crawler.ts:188), made an explicit input of the embedding. -/
def generateMarkdownReport (now : String) (fmt : String → String)
    (results : List PageResult) : String :=
  "# Accessibility Report\n\n" ++
  "**Generated:** " ++ now ++ "\n" ++
  "**Pages Analyzed:** " ++ toString results.length ++ "\n\n" ++
  summarySection results ++
  String.join (results.map (pageBlock fmt))

/-- Everything the renderer emits after the `Generated` header line
(src/crawler.ts:189-343); depends only on the stored session data, not
on the render-time clock. -/
def reportAfterHeader (fmt : String → String) (results : List PageResult) : String :=
  "**Pages Analyzed:** " ++ toString results.length ++ "\n\n" ++
  summarySection results ++
  String.join (results.map (pageBlock fmt))

/-- A violation carrying a null impact, as axe can produce. -/
def vNull : Violation :=
  { id := "region", impact := none, help := "h", description := "d"
    helpUrl := "u", nodes := [] }

/-! ## CLI budget parsing (`main`, src/crawler.ts:373-377) -/

/-- The whitespace skipped by JS `parseInt`. -/
def isJsWhitespace (c : Char) : Bool :=
  c = ' ' || c = '\t' || c = '\n' || c = '\r' || c = '\x0b' || c = '\x0c'

/-- Hexadecimal digit test for the `0x` branch of `parseInt`. -/
def isHexDigitChar (c : Char) : Bool :=
  c.isDigit || ('a' ≤ c && c ≤ 'f') || ('A' ≤ c && c ≤ 'F')

/-- Numeric value of a (hex) digit character. -/
def hexDigitVal (c : Char) : Nat :=
  if c.isDigit then c.toNat - 48
  else if 'a' ≤ c then c.toNat - 87
  else c.toNat - 55

/-- Accumulate a digit run in the given base. -/
def digitsToNat (base : Nat) (ds : List Char) : Nat :=
  ds.foldl (fun a c => a * base + hexDigitVal c) 0

/-- The longest decimal-digit prefix as a value, `none` when empty
(JS `NaN`). -/
def decPrefixVal (sign : Int) (cs : List Char) : Option Int :=
  let ds := cs.takeWhile Char.isDigit
  if ds.isEmpty then none else some (sign * (digitsToNat 10 ds : Nat))

/-- JS `parseInt(s)` with no radix argument: skip whitespace, optional
sign, `0x`/`0X` switches to base 16, then the longest digit prefix;
`none` models `NaN`. -/
def parseIntJS (s : String) : Option Int :=
  let cs := s.data.dropWhile isJsWhitespace
  let signed : Int × List Char :=
    match cs with
    | '-' :: rest => (-1, rest)
    | '+' :: rest => (1, rest)
    | _ => (1, cs)
  match signed.2 with
  | '0' :: c :: rest =>
    if c = 'x' ∨ c = 'X' then
      let ds := rest.takeWhile isHexDigitChar
      if ds.isEmpty then none else some (signed.1 * (digitsToNat 16 ds : Nat))
    else decPrefixVal signed.1 ('0' :: c :: rest)
  | other => decPrefixVal signed.1 other

/-- JS `x || d` where `x` is the number-or-NaN result of `parseInt`:
`NaN` and `0` are falsy and fall back to `d`. -/
def numOrDefault (v : Option Int) (d : Int) : Int :=
  match v with
  | some n => if n = 0 then d else n
  | none => d

/-- The `--max-pages` computation of `main` (src/crawler.ts:373-377):
`maxPagesIndex !== -1 && args[maxPagesIndex + 1] ? parseInt(...) || 10
: 10`.  A missing flag, a missing or empty (falsy) value, a
non-numeric value (`NaN`) and a value parsing to `0` all yield the
default 10. -/
def maxPagesFromArgs (args : List String) : Int :=
  let i := args.indexOf "--max-pages"
  if i = args.length then 10
  else
    match args.get? (i + 1) with
    | some v => if v = "" then 10 else numOrDefault (parseIntJS v) 10
    | none => 10

/-! ## Resource cleanup (`close`, src/crawler.ts:346-353) -/

/-- What the browser layer does when asked to close the context and the
browser; `Except.error` models a thrown exception. -/
structure CloseBehavior where
  contextClose : Except String Unit
  browserClose : Except String Unit

/-- The observable outcome of `close()`: which close calls were
reached, and the exception (if any) propagated to the caller. -/
structure CloseOutcome where
  contextAttempted : Bool
  browserAttempted : Bool
  outcome : Except String Unit

/-- `close()` (src/crawler.ts:346-353): `if (this.context) await
this.context.close(); if (this.browser) await this.browser.close();`
with no try/catch — an exception in either close propagates, and an
exception from the context close prevents the browser close from ever
being reached. -/
def close (hasContext hasBrowser : Bool) (beh : CloseBehavior) : CloseOutcome :=
  if hasContext then
    match beh.contextClose with
    | .error e => ⟨true, false, .error e⟩
    | .ok _ =>
      if hasBrowser then
        match beh.browserClose with
        | .error e => ⟨true, true, .error e⟩
        | .ok _ => ⟨true, true, .ok ()⟩
      else ⟨true, false, .ok ()⟩
  else
    if hasBrowser then
      match beh.browserClose with
      | .error e => ⟨false, true, .error e⟩
      | .ok _ => ⟨false, true, .ok ()⟩
    else ⟨false, false, .ok ()⟩

/-! ## Witness fixtures: a small concrete session -/

/-- A parsed same-origin URL on host `ex.com`. -/
def wUrl (p : String) : Url := .parsed ⟨"https", "ex.com", none, p, "", ""⟩

/-- An environment where every page loads, yields no violations and
links to `/b` and `/c`. -/
def wEnv : Env :=
  { load := fun _ => some
      { axe := ⟨[]⟩, lighthouse := none, links := some [wUrl "/b", wUrl "/c"] }
    stamp := fun _ => "2025-01-01T00:00:00.000Z" }

/-- An environment where every navigation (or axe run) throws. -/
def wEnvFail : Env :=
  { load := fun _ => none, stamp := fun _ => "2025-01-01T00:00:00.000Z" }

/-- A session configuration with budget 2 on origin `https://ex.com`. -/
def wCfg : Config :=
  { baseOrigin := ⟨"https", "ex.com", none⟩, maxPages := 2, browserReady := true }

/-- The freshly initialised session state. -/
def wSt : CrawlState := ⟨[], []⟩

/-- A violation carrying a critical impact. -/
def vCrit : Violation :=
  { id := "image-alt", impact := some "critical", help := "h2"
    description := "d2", helpUrl := "u2", nodes := [] }

end A11y

/-! # Theorems -/

namespace A11y

/-- The master preservation principle for the crawl controller: any
state predicate closed under the two mutations `crawl` performs — the
guarded reservation of a fresh in-scope URL, and that reservation
together with the push of its `PageResult` — holds after any crawl from
any state satisfying it. -/
theorem crawlAux_preserve (env : Env) (cfg : Config) (Inv : CrawlState → Prop)
    (hres : ∀ (st : CrawlState) (n : Url), Inv st →
      (st.visitedUrls.length : Int) < cfg.maxPages →
      n ∉ st.visitedUrls → isInternalUrl cfg.baseOrigin n = true → isWebPage n = true →
      Inv { st with visitedUrls := n :: st.visitedUrls })
    (hpush : ∀ (st : CrawlState) (n : Url) (pg : PageBehavior), Inv st →
      (st.visitedUrls.length : Int) < cfg.maxPages →
      n ∉ st.visitedUrls → isInternalUrl cfg.baseOrigin n = true → isWebPage n = true →
      Inv { visitedUrls := n :: st.visitedUrls,
            results := st.results ++ [mkPageResult env n pg] }) :
    ∀ (fuel : Nat) (t : Url ⊕ List Url) (st : CrawlState),
      Inv st → Inv (crawlAux env cfg fuel t st) := by
  intro fuel
  induction fuel with
  | zero => intro t st h; simpa only [crawlAux] using h
  | succ fuel ih =>
    intro t st h
    match t with
    | .inl url =>
      simp only [crawlAux]
      split
      · exact h
      split
      · exact h
      next hbudget =>
        split
        · exact h
        next hreject =>
          push_neg at hreject
          obtain ⟨hnv, hint, hweb⟩ := hreject
          simp only [ne_eq, Bool.not_eq_false] at hint hweb
          have hlt : (st.visitedUrls.length : Int) < cfg.maxPages := not_le.mp hbudget
          cases hload : env.load (normalizeUrl url) with
          | none => exact hres st _ h hlt hnv hint hweb
          | some pg =>
            simp only []
            split
            · cases hlinks : pg.links with
              | none => exact hpush st _ pg h hlt hnv hint hweb
              | some ls => exact ih _ _ (hpush st _ pg h hlt hnv hint hweb)
            · exact hpush st _ pg h hlt hnv hint hweb
    | .inr [] => simpa only [crawlAux] using h
    | .inr (l :: ls) =>
      simp only [crawlAux]
      split
      · exact h
      · exact ih _ _ (ih _ _ h)

/-- `crawl` returns without touching the state when the normalized URL
is already visited, out of scope, or not a web page. -/
theorem crawlAux_noop_reject (env : Env) (cfg : Config) (fuel : Nat) (url : Url)
    (st : CrawlState)
    (h : normalizeUrl url ∈ st.visitedUrls ∨
         isInternalUrl cfg.baseOrigin (normalizeUrl url) = false ∨
         isWebPage (normalizeUrl url) = false) :
    crawlAux env cfg fuel (.inl url) st = st := by
  cases fuel with
  | zero => simp only [crawlAux]
  | succ fuel => simp [crawlAux, h]

/-- `crawl` returns before reserving when the visited-set size has
reached the budget. -/
theorem crawlAux_noop_budget (env : Env) (cfg : Config) (fuel : Nat) (url : Url)
    (st : CrawlState) (h : cfg.maxPages ≤ (st.visitedUrls.length : Int)) :
    crawlAux env cfg fuel (.inl url) st = st := by
  cases fuel with
  | zero => simp only [crawlAux]
  | succ fuel => simp [crawlAux, h]

/-- The visited set only ever grows. -/
theorem crawlAux_visited_mono (env : Env) (cfg : Config) (fuel : Nat)
    (t : Url ⊕ List Url) (st : CrawlState) :
    st.visitedUrls ⊆ (crawlAux env cfg fuel t st).visitedUrls := by
  exact crawlAux_preserve env cfg (fun s => st.visitedUrls ⊆ s.visitedUrls)
    (fun s n hs _ _ _ _ => hs.trans (List.subset_cons_self _ _))
    (fun s n pg hs _ _ _ _ => hs.trans (List.subset_cons_self _ _))
    fuel t st (List.Subset.refl _)

/-- The visited set stays duplicate-free. -/
theorem crawlAux_visited_nodup (env : Env) (cfg : Config) (fuel : Nat)
    (t : Url ⊕ List Url) (st : CrawlState) (h : st.visitedUrls.Nodup) :
    (crawlAux env cfg fuel t st).visitedUrls.Nodup := by
  exact crawlAux_preserve env cfg (fun s => s.visitedUrls.Nodup)
    (fun s n hs _ hnv _ _ => List.nodup_cons.mpr ⟨hnv, hs⟩)
    (fun s n pg hs _ hnv _ _ => List.nodup_cons.mpr ⟨hnv, hs⟩)
    fuel t st h

/-- The visited-set size never exceeds the budget. -/
theorem crawlAux_budget (env : Env) (cfg : Config) (fuel : Nat)
    (t : Url ⊕ List Url) (st : CrawlState)
    (h : (st.visitedUrls.length : Int) ≤ cfg.maxPages) :
    ((crawlAux env cfg fuel t st).visitedUrls.length : Int) ≤ cfg.maxPages := by
  exact crawlAux_preserve env cfg
    (fun s => (s.visitedUrls.length : Int) ≤ cfg.maxPages)
    (fun s n hs hlt _ _ _ => by
      simp only [List.length_cons]; push_cast; omega)
    (fun s n pg hs hlt _ _ _ => by
      simp only [List.length_cons]; push_cast; omega)
    fuel t st h

/-- The result urls stay duplicate-free and inside the visited set. -/
theorem crawlAux_results_inv (env : Env) (cfg : Config) (fuel : Nat)
    (t : Url ⊕ List Url) (st : CrawlState)
    (h1 : (st.results.map (fun r => r.url)).Nodup)
    (h2 : ∀ r ∈ st.results, r.url ∈ st.visitedUrls) :
    ((crawlAux env cfg fuel t st).results.map (fun r => r.url)).Nodup ∧
    (∀ r ∈ (crawlAux env cfg fuel t st).results,
        r.url ∈ (crawlAux env cfg fuel t st).visitedUrls) := by
  exact crawlAux_preserve env cfg
    (fun s => ((s.results.map (fun r => r.url)).Nodup ∧
      ∀ r ∈ s.results, r.url ∈ s.visitedUrls))
    (fun s n hs _ _ _ _ => by
      refine ⟨?_, ?_⟩
      · exact hs.1
      · intro r hr
        exact List.mem_cons_of_mem _ (hs.2 r hr))
    (fun s n pg hs _ hnv _ _ => by
      refine ⟨?_, ?_⟩
      · show ((s.results ++ [mkPageResult env n pg]).map (fun r => r.url)).Nodup
        rw [List.map_append]
        refine List.Nodup.append hs.1 (List.nodup_singleton _) ?_
        intro x hx hx'
        simp only [List.map_cons, List.map_nil, List.mem_singleton, mkPageResult] at hx'
        subst hx'
        obtain ⟨r, hr, hru⟩ := List.mem_map.mp hx
        exact hnv (hru ▸ hs.2 r hr)
      · intro r hr
        rcases List.mem_append.mp (by exact hr) with hr' | hr'
        · exact List.mem_cons_of_mem _ (hs.2 r hr')
        · simp only [List.mem_singleton] at hr'
          subst hr'
          exact List.mem_cons_self _ _)
    fuel t st ⟨h1, h2⟩

/-- Every URL ever reserved, and every URL a result was produced for,
is in scope and document-like. -/
theorem crawlAux_scope_inv (env : Env) (cfg : Config) (fuel : Nat)
    (t : Url ⊕ List Url) (st : CrawlState)
    (h1 : ∀ u ∈ st.visitedUrls,
        isInternalUrl cfg.baseOrigin u = true ∧ isWebPage u = true)
    (h2 : ∀ r ∈ st.results,
        isInternalUrl cfg.baseOrigin r.url = true ∧ isWebPage r.url = true) :
    (∀ u ∈ (crawlAux env cfg fuel t st).visitedUrls,
        isInternalUrl cfg.baseOrigin u = true ∧ isWebPage u = true) ∧
    (∀ r ∈ (crawlAux env cfg fuel t st).results,
        isInternalUrl cfg.baseOrigin r.url = true ∧ isWebPage r.url = true) := by
  exact crawlAux_preserve env cfg
    (fun s => (∀ u ∈ s.visitedUrls,
        isInternalUrl cfg.baseOrigin u = true ∧ isWebPage u = true) ∧
      ∀ r ∈ s.results,
        isInternalUrl cfg.baseOrigin r.url = true ∧ isWebPage r.url = true)
    (fun s n hs _ _ hint hweb =>
      ⟨fun u hu => by
        rcases List.mem_cons.mp hu with rfl | hu
        · exact ⟨hint, hweb⟩
        · exact hs.1 u hu,
       hs.2⟩)
    (fun s n pg hs _ _ hint hweb =>
      ⟨fun u hu => by
        rcases List.mem_cons.mp hu with rfl | hu
        · exact ⟨hint, hweb⟩
        · exact hs.1 u hu,
       fun r hr => by
        rcases List.mem_append.mp hr with hr | hr
        · exact hs.2 r hr
        · simp only [List.mem_singleton] at hr
          subst hr
          exact ⟨hint, hweb⟩⟩)
    fuel t st ⟨h1, h2⟩

/-- C1: For every crawl session with a non-negative page budget, the
size of the visited set never exceeds the budget, at every point during
and after traversal (both through `crawl` and through the link loop),
because `crawl` returns before reserving whenever the visited-set size
has reached `maxPages`. -/
theorem crawl_budget_invariant (fuel : Nat) (env : Env) (cfg : Config) (url : Url)
    (st : CrawlState) (hle : (st.visitedUrls.length : Int) ≤ cfg.maxPages) :
    ((crawl fuel env cfg url st).visitedUrls.length : Int) ≤ cfg.maxPages ∧
    (∀ links : List Url,
      ((crawlList fuel env cfg links st).visitedUrls.length : Int) ≤ cfg.maxPages) ∧
    (cfg.maxPages ≤ (st.visitedUrls.length : Int) →
      crawl fuel env cfg url st = st) :=
  ⟨crawlAux_budget env cfg fuel (.inl url) st hle,
   fun links => crawlAux_budget env cfg fuel (.inr links) st hle,
   fun hge => crawlAux_noop_budget env cfg fuel url st hge⟩

/-- Witness for C1 at a concrete session: budget 2, empty start state,
an environment linking every page onward. -/
theorem crawl_budget_invariant_witness :
    ((wSt.visitedUrls.length : Int) ≤ wCfg.maxPages) ∧
    ((crawl 10 wEnv wCfg (wUrl "/") wSt).visitedUrls.length : Int) ≤ wCfg.maxPages :=
  ⟨by decide, (crawl_budget_invariant 10 wEnv wCfg (wUrl "/") wSt (by decide)).1⟩

/-- C2: Visitation is idempotent: the visited set never acquires a
duplicate canonical identity, an identity once added is never removed,
a `crawl` on an already-visited canonical URL is a complete no-op (so a
second discovery path yields no second analysis), and the accumulated
`PageResult`s keep pairwise-distinct URLs (at most one result per
identity). -/
theorem crawl_idempotent_visitation (fuel : Nat) (env : Env) (cfg : Config)
    (url : Url) (st : CrawlState) (hnd : st.visitedUrls.Nodup) :
    (crawl fuel env cfg url st).visitedUrls.Nodup ∧
    st.visitedUrls ⊆ (crawl fuel env cfg url st).visitedUrls ∧
    (normalizeUrl url ∈ st.visitedUrls → crawl fuel env cfg url st = st) ∧
    ((st.results.map (fun r => r.url)).Nodup →
      (∀ r ∈ st.results, r.url ∈ st.visitedUrls) →
      ((crawl fuel env cfg url st).results.map (fun r => r.url)).Nodup) :=
  ⟨crawlAux_visited_nodup env cfg fuel (.inl url) st hnd,
   crawlAux_visited_mono env cfg fuel (.inl url) st,
   fun hmem => crawlAux_noop_reject env cfg fuel url st (Or.inl hmem),
   fun h1 h2 => (crawlAux_results_inv env cfg fuel (.inl url) st h1 h2).1⟩

/-- Witness for C2 on the concrete session. -/
theorem crawl_idempotent_visitation_witness :
    wSt.visitedUrls.Nodup ∧ (crawl 10 wEnv wCfg (wUrl "/") wSt).visitedUrls.Nodup :=
  ⟨by decide, (crawl_idempotent_visitation 10 wEnv wCfg (wUrl "/") wSt (by decide)).1⟩

/-- C3: When navigation or the axe analysis throws for a target, that
target contributes no `PageResult`, its identity stays reserved in the
visited set, the failure is absorbed (`crawl` returns the updated state
normally), and the link loop proceeds to the remaining frontier. -/
theorem crawl_failure_containment (fuel : Nat) (env : Env) (cfg : Config)
    (url : Url) (st : CrawlState) (rest : List Url)
    (hbr : cfg.browserReady = true)
    (hlt : (st.visitedUrls.length : Int) < cfg.maxPages)
    (hnv : normalizeUrl url ∉ st.visitedUrls)
    (hint : isInternalUrl cfg.baseOrigin (normalizeUrl url) = true)
    (hweb : isWebPage (normalizeUrl url) = true)
    (hfail : env.load (normalizeUrl url) = none) :
    crawl (fuel + 1) env cfg url st
      = { st with visitedUrls := normalizeUrl url :: st.visitedUrls } ∧
    (crawl (fuel + 1) env cfg url st).results = st.results ∧
    normalizeUrl url ∈ (crawl (fuel + 1) env cfg url st).visitedUrls ∧
    crawlList (fuel + 1) env cfg (url :: rest) st
      = crawlList fuel env cfg rest (crawl fuel env cfg url st) := by
  have hmain : crawl (fuel + 1) env cfg url st
      = { st with visitedUrls := normalizeUrl url :: st.visitedUrls } := by
    simp only [crawl, crawlAux]
    rw [if_neg (by simp [hbr]), if_neg (not_le.mpr hlt),
      if_neg (by push_neg; exact ⟨hnv, by simp [hint], by simp [hweb]⟩), hfail]
  refine ⟨hmain, by rw [hmain], by rw [hmain]; exact List.mem_cons_self _ _, ?_⟩
  simp only [crawlList, crawl, crawlAux]
  rw [if_neg (not_le.mpr hlt)]

/-- Witness for C3: an environment where every navigation throws; the
failed target leaves the result list untouched. -/
theorem crawl_failure_containment_witness :
    wEnvFail.load (normalizeUrl (wUrl "/")) = none ∧
    (crawl 1 wEnvFail wCfg (wUrl "/") wSt).results = wSt.results :=
  ⟨rfl, (crawl_failure_containment 0 wEnvFail wCfg (wUrl "/") wSt []
    rfl (by decide) (by decide) (by decide) (by decide) rfl).2.1⟩

/-- C8: URLs out of the session origin or with a deny-listed extension
are never reserved and never analyzed, regardless of discovery order
(the scope predicate is invariant over the visited set and the result
set); a rejected URL leaves the state untouched; an unparseable URL is
out of scope for `isInternalUrl` and document-like for `isWebPage`. -/
theorem crawl_scope_filtering (fuel : Nat) (env : Env) (cfg : Config) (url : Url)
    (st : CrawlState)
    (hv : ∀ u ∈ st.visitedUrls,
        isInternalUrl cfg.baseOrigin u = true ∧ isWebPage u = true)
    (hr : ∀ r ∈ st.results,
        isInternalUrl cfg.baseOrigin r.url = true ∧ isWebPage r.url = true) :
    (∀ u ∈ (crawl fuel env cfg url st).visitedUrls,
        isInternalUrl cfg.baseOrigin u = true ∧ isWebPage u = true) ∧
    (∀ r ∈ (crawl fuel env cfg url st).results,
        isInternalUrl cfg.baseOrigin r.url = true ∧ isWebPage r.url = true) ∧
    ((isInternalUrl cfg.baseOrigin (normalizeUrl url) = false ∨
        isWebPage (normalizeUrl url) = false) → crawl fuel env cfg url st = st) ∧
    (∀ s : String, isInternalUrl cfg.baseOrigin (Url.malformed s) = false ∧
        isWebPage (Url.malformed s) = true) :=
  ⟨(crawlAux_scope_inv env cfg fuel (.inl url) st hv hr).1,
   (crawlAux_scope_inv env cfg fuel (.inl url) st hv hr).2,
   fun hbad => crawlAux_noop_reject env cfg fuel url st (Or.inr hbad),
   fun s => ⟨rfl, rfl⟩⟩

/-- Witness for C8: crawling an out-of-origin URL from the fresh state
leaves the state untouched, and every visited URL of a crawl from the
fresh state is in scope. -/
theorem crawl_scope_filtering_witness :
    (∀ u ∈ wSt.visitedUrls,
        isInternalUrl wCfg.baseOrigin u = true ∧ isWebPage u = true) ∧
    (∀ u ∈ (crawl 10 wEnv wCfg (wUrl "/") wSt).visitedUrls,
        isInternalUrl wCfg.baseOrigin u = true ∧ isWebPage u = true) :=
  ⟨by simp [wSt], (crawl_scope_filtering 10 wEnv wCfg (wUrl "/") wSt
    (by simp [wSt]) (by simp [wSt])).1⟩

/-- C9: `normalizeUrl` strips the fragment of every syntactically valid
URL, so two valid URLs differing only in their fragment map to the same
canonical value and the same canonical string, while an unparseable
input is returned unchanged. -/
theorem normalize_strips_fragment (u v : ParsedUrl) (raw : String)
    (hs : u.scheme = v.scheme) (hh : u.host = v.host) (hp : u.port = v.port)
    (hpa : u.pathname = v.pathname) (hq : u.search = v.search) :
    normalizeUrl (.parsed u) = normalizeUrl (.parsed v) ∧
    Url.href (normalizeUrl (.parsed u)) = Url.href (normalizeUrl (.parsed v)) ∧
    normalizeUrl (.malformed raw) = .malformed raw ∧
    Url.href (Url.malformed raw) = raw := by
  cases u
  cases v
  simp_all [normalizeUrl, Url.href]

/-- Witness for C9: `https://ex.com/a#x` and `https://ex.com/a#y`
normalize to the same canonical string `https://ex.com/a`. -/
theorem normalize_strips_fragment_witness :
    Url.href (normalizeUrl (.parsed ⟨"https", "ex.com", none, "/a", "", "#x"⟩))
      = Url.href (normalizeUrl (.parsed ⟨"https", "ex.com", none, "/a", "", "#y"⟩)) ∧
    Url.href (normalizeUrl (.parsed ⟨"https", "ex.com", none, "/a", "", "#x"⟩))
      = "https://ex.com/a" :=
  ⟨(normalize_strips_fragment ⟨"https", "ex.com", none, "/a", "", "#x"⟩
      ⟨"https", "ex.com", none, "/a", "", "#y"⟩ "" rfl rfl rfl rfl rfl).2.1,
   by decide⟩

/-- C10: In every reachable session state the accumulated result URLs
are pairwise distinct and members of the visited set, so the report's
page count never exceeds the visited-set size, which never exceeds the
page budget. -/
theorem crawl_results_distinct_bounded (fuel : Nat) (env : Env) (cfg : Config)
    (url : Url) (st : CrawlState)
    (h1 : (st.results.map (fun r => r.url)).Nodup)
    (h2 : ∀ r ∈ st.results, r.url ∈ st.visitedUrls)
    (h3 : (st.visitedUrls.length : Int) ≤ cfg.maxPages) :
    ((crawl fuel env cfg url st).results.map (fun r => r.url)).Nodup ∧
    (∀ r ∈ (crawl fuel env cfg url st).results,
        r.url ∈ (crawl fuel env cfg url st).visitedUrls) ∧
    (crawl fuel env cfg url st).results.length
      ≤ (crawl fuel env cfg url st).visitedUrls.length ∧
    ((crawl fuel env cfg url st).visitedUrls.length : Int) ≤ cfg.maxPages := by
  obtain ⟨hn, hm⟩ := crawlAux_results_inv env cfg fuel (.inl url) st h1 h2
  refine ⟨hn, hm, ?_, crawlAux_budget env cfg fuel (.inl url) st h3⟩
  have hsub : (crawl fuel env cfg url st).results.map (fun r => r.url)
      ⊆ (crawl fuel env cfg url st).visitedUrls := by
    intro x hx
    obtain ⟨r, hr, rfl⟩ := List.mem_map.mp hx
    exact hm r hr
  have hlen := (hn.subperm hsub).length_le
  simpa using hlen

/-- Witness for C10 on the concrete session: 2 results, 2 visited
URLs, budget 2. -/
theorem crawl_results_distinct_bounded_witness :
    (crawl 10 wEnv wCfg (wUrl "/") wSt).results.length
      ≤ (crawl 10 wEnv wCfg (wUrl "/") wSt).visitedUrls.length :=
  (crawl_results_distinct_bounded 10 wEnv wCfg (wUrl "/") wSt
    (by decide) (by decide) (by decide)).2.2.1

/-- Membership count of a violation across the four severity groups:
one when the violation belongs to the list and carries one of the four
recognized impacts, zero otherwise. -/
theorem countP_groups (vs : List Violation) (x : Violation) :
    (violationsByImpact vs).countP (fun g => decide (x ∈ g.2))
      = if x ∈ vs ∧ recognizedImpact x.impact = true then 1 else 0 := by
  by_cases hx : x ∈ vs
  · by_cases h1 : x.impact = some "critical"
    · simp [violationsByImpact, List.countP_cons, List.mem_filter, hx, h1, recognizedImpact]
    · by_cases h2 : x.impact = some "serious"
      · simp [violationsByImpact, List.countP_cons, List.mem_filter, hx, h1, h2,
          recognizedImpact]
      · by_cases h3 : x.impact = some "moderate"
        · simp [violationsByImpact, List.countP_cons, List.mem_filter, hx, h1, h2, h3,
            recognizedImpact]
        · by_cases h4 : x.impact = some "minor"
          · simp [violationsByImpact, List.countP_cons, List.mem_filter, hx, h1, h2, h3, h4,
              recognizedImpact]
          · simp [violationsByImpact, List.countP_cons, List.mem_filter, hx, h1, h2, h3, h4,
              recognizedImpact]
  · simp [violationsByImpact, List.countP_cons, List.mem_filter, hx]

/-- Group sizes sum to the number of violations with a recognized
impact, not to the total violation count. -/
theorem sum_group_lengths (vs : List Violation) :
    ((violationsByImpact vs).map (fun g => g.2.length)).sum
      = (vs.filter (fun x => recognizedImpact x.impact)).length := by
  induction vs with
  | nil => rfl
  | cons v vs ih =>
    simp only [violationsByImpact, List.map_cons, List.map_nil, List.sum_cons,
      List.sum_nil] at ih ⊢
    simp only [List.filter_cons] at ih ⊢
    by_cases h1 : v.impact = some "critical"
    · simp only [h1, recognizedImpact] at ih ⊢
      simp
      omega
    · by_cases h2 : v.impact = some "serious"
      · simp only [h2, recognizedImpact] at ih ⊢
        simp
        omega
      · by_cases h3 : v.impact = some "moderate"
        · simp only [h3, recognizedImpact] at ih ⊢
          simp
          omega
        · by_cases h4 : v.impact = some "minor"
          · simp only [h4, recognizedImpact] at ih ⊢
            simp
            omega
          · simp only [recognizedImpact] at ih ⊢
            simp [h1, h2, h3, h4]
            omega

/-- C4 counterexample: a violation with a null impact falls in none of
the four severity groups, so the grouping is not exhaustive — the
per-group counts sum to 0 while the page has 1 violation. -/
theorem severity_grouping_not_exhaustive :
    ((violationsByImpact [vNull]).map (fun g => g.2.length)).sum = 0 ∧
    [vNull].length = 1 ∧
    (violationsByImpact [vNull]).all (fun g => !(g.2.contains vNull)) = true := by
  decide

/-- C4 (amended): severity grouping is disjoint, and it is exhaustive
exactly over the violations whose impact is one of critical, serious,
moderate, minor: each such violation appears in exactly one group, a
violation with an absent or unrecognized impact appears in no group,
and the per-group counts sum to the number of recognized-impact
violations rather than to the page total. -/
theorem severity_grouping_amended (vs : List Violation) (v : Violation) (hv : v ∈ vs) :
    ((violationsByImpact vs).map (fun g => g.2.length)).sum
      = (vs.filter (fun x => recognizedImpact x.impact)).length ∧
    (violationsByImpact vs).countP (fun g => decide (v ∈ g.2))
      = (if recognizedImpact v.impact = true then 1 else 0) ∧
    (∀ x : Violation, (violationsByImpact vs).countP (fun g => decide (x ∈ g.2)) ≤ 1) := by
  refine ⟨sum_group_lengths vs, ?_, ?_⟩
  · rw [countP_groups]
    simp [hv]
  · intro x
    rw [countP_groups]
    split <;> simp

/-- Witness for the amended C4 on a concrete page with one null-impact
and one critical violation. -/
theorem severity_grouping_amended_witness :
    vCrit ∈ [vNull, vCrit] ∧
    ((violationsByImpact [vNull, vCrit]).map (fun g => g.2.length)).sum
      = ([vNull, vCrit].filter (fun x => recognizedImpact x.impact)).length :=
  ⟨by decide, (severity_grouping_amended [vNull, vCrit] vCrit (by decide)).1⟩

/-- C5 counterexample: two renders of the same empty session at
different wall-clock readings differ, because the `Generated` header
embeds `new Date().toLocaleString()` taken at render time. -/
theorem report_wall_clock_dependent :
    generateMarkdownReport "A" (fun s => s) []
      ≠ generateMarkdownReport "B" (fun s => s) [] := by decide

/-- C5 (amended): report rendering is a pure function of the stored
session data and the render-time clock reading, and the clock reading
enters only through the `Generated` header line — everything after it
depends solely on the stored results and the timestamp formatter. -/
theorem report_deterministic_given_clock (now : String) (fmt : String → String)
    (results : List PageResult) :
    generateMarkdownReport now fmt results
      = "# Accessibility Report\n\n" ++ "**Generated:** " ++ now ++ "\n"
        ++ reportAfterHeader fmt results := by
  simp only [generateMarkdownReport, reportAfterHeader, String.append_assoc]

/-- C6 counterexample: when closing the browsing context throws,
`close()` neither attempts the browser close nor contains the failure —
the exception propagates to the caller. -/
theorem close_counterexample :
    (close true true ⟨.error "context close failed", .ok ()⟩).browserAttempted = false ∧
    (close true true ⟨.error "context close failed", .ok ()⟩).outcome
      = Except.error "context close failed" := ⟨rfl, rfl⟩

/-- C6 (amended): `close()` closes the context and then the browser in
order, with no exception handling: a context-close failure propagates
to the caller and skips the browser close entirely, and when the
context close succeeds the browser close is attempted and its outcome
(including any failure) is what the caller observes. -/
theorem close_amended (beh : CloseBehavior) :
    (∀ e : String, beh.contextClose = .error e →
      close true true beh = ⟨true, false, .error e⟩) ∧
    (beh.contextClose = .ok () →
      (close true true beh).browserAttempted = true ∧
      (close true true beh).outcome = beh.browserClose) := by
  constructor
  · intro e he
    simp [close, he]
  · intro hok
    cases hb : beh.browserClose with
    | error e => simp [close, hok, hb]
    | ok u => cases u; simp [close, hok, hb]

/-- Witness for the amended C6: with both closes succeeding, the
browser close is attempted and the overall outcome is its result. -/
theorem close_amended_witness :
    (⟨Except.ok (), Except.ok ()⟩ : CloseBehavior).contextClose = Except.ok () ∧
    ((close true true ⟨Except.ok (), Except.ok ()⟩).browserAttempted = true ∧
     (close true true ⟨Except.ok (), Except.ok ()⟩).outcome
        = (⟨Except.ok (), Except.ok ()⟩ : CloseBehavior).browserClose) :=
  ⟨rfl, (close_amended ⟨Except.ok (), Except.ok ()⟩).2 rfl⟩

/-- C7 counterexample: `parseInt(x) || 10` sends the numeric value `0`
to the default 10, and lets the numeric value `-5` through as a
negative budget — so the budget is neither `n` for every numeric `n`
nor always non-negative. -/
theorem maxPages_parsing_counterexample :
    maxPagesFromArgs ["https://ex.com", "--max-pages", "0"] = 10 ∧
    maxPagesFromArgs ["https://ex.com", "--max-pages", "-5"] = -5 ∧
    ¬((0:Int) ≤ maxPagesFromArgs ["https://ex.com", "--max-pages", "-5"]) := by
  decide

/-- C7 (amended): the `--max-pages` value yields `parseInt(value)`
whenever that parse is a nonzero number (including negative numbers),
and falls back to the default 10 when the value is non-numeric (`NaN`)
or parses to `0`. -/
theorem maxPages_parsing_amended (v : String) :
    (∀ n : Int, parseIntJS v = some n → n ≠ 0 →
      maxPagesFromArgs ["https://ex.com", "--max-pages", v] = n) ∧
    (parseIntJS v = none →
      maxPagesFromArgs ["https://ex.com", "--max-pages", v] = 10) ∧
    (parseIntJS v = some 0 →
      maxPagesFromArgs ["https://ex.com", "--max-pages", v] = 10) := by
  have hform : maxPagesFromArgs ["https://ex.com", "--max-pages", v]
      = if v = "" then 10 else numOrDefault (parseIntJS v) 10 := by
    simp [maxPagesFromArgs, List.indexOf, List.findIdx, List.findIdx.go]
  have hempty : parseIntJS "" = none := rfl
  refine ⟨?_, ?_, ?_⟩
  · intro n hn hn0
    have hv : v ≠ "" := fun h => by rw [h, hempty] at hn; cases hn
    rw [hform, if_neg hv]
    simp [numOrDefault, hn, hn0]
  · intro hn
    rw [hform]
    by_cases hv : v = ""
    · simp [hv]
    · simp [hv, numOrDefault, hn]
  · intro hn
    rw [hform]
    by_cases hv : v = ""
    · simp [hv]
    · simp [hv, numOrDefault, hn]

/-- Witness for the amended C7: the numeric value `"7"` yields budget
7. -/
theorem maxPages_parsing_amended_witness :
    (parseIntJS "7" = some 7 ∧ (7:Int) ≠ 0) ∧
    maxPagesFromArgs ["https://ex.com", "--max-pages", "7"] = 7 :=
  ⟨⟨by decide, by decide⟩, (maxPages_parsing_amended "7").1 7 (by decide) (by decide)⟩

end A11y
